import Mathlib

/-!
Verification of the indy-shared-rs prover service and FFI object boundary.

This development shallow-embeds the prover service (`create_credential_request`,
`process_credential`, `create_presentation` and its helpers from
`indy-credx/src/services/prover.rs`), the FFI object registry
(`indy-credx/src/ffi/object.rs`) and the revocation-entry collection loop of
`_credx_verify_presentation` (`indy-credx/src/ffi/presentation.rs`).

Modelling conventions:
* Rust `HashMap`/`BTreeMap` values become association lists; `HashSet` values
  become lists (iteration order of a hash container is arbitrary in Rust, and no
  theorem below depends on a particular order beyond what the source fixes).
* Opaque CL-signature payloads (signatures, keys, blinded secrets, witnesses,
  accumulators) become `Nat` stand-ins; the CL primitive operations themselves
  are taken as explicit function arguments, so every theorem quantifies over
  the behaviour of the black-box CL provider.
* Fallible Rust functions returning `Result` become `Except Err`α; the distinct
  `err_msg!` call sites of the embedded code are distinguished by constructors
  of the `Err` type.
-/

/-- Error values of the embedded code. Each constructor corresponds to one
`err_msg!` site (all of kind `Input`) of the embedded functions, except
`vecIndexOutOfBounds`, which models a Rust `Vec` indexing panic, and `clError`,
which models a failure reported by the black-box CL primitive. -/
inductive Err where
  | noCredentialMapping
  | duplicateReferent
  | schemaNotProvided (id : String)
  | credDefNotProvided (id : String)
  | attributeInfoNotFound (referent : String)
  | predicateInfoNotFound (referent : String)
  | missingAttributeReferent (referent : String)
  | credentialValueNotFound (name : String)
  | invalidRevRegIndex
  | vecIndexOutOfBounds
  | invalidObjectHandle
  | clError (msg : String)
deriving Repr, DecidableEq

/-- Lookup in an association list, mirroring `HashMap::get` on the embedded maps. -/
def alookup {α β : Type} [BEq α] (l : List (α × β)) (k : α) : Option β :=
  (l.find? (fun p => p.1 == k)).map Prod.snd

/-- Insertion into an association list with `HashMap::insert` semantics: the
previous binding of the key, if any, is replaced. -/
def ainsert {α β : Type} [BEq α] (l : List (α × β)) (k : α) (v : β) : List (α × β) :=
  l.filter (fun p => !(p.1 == k)) ++ [(k, v)]

/-- Modelled from the spec: `attr_common_view` of `services/helpers.rs` (not
under `src/`): strip all ASCII whitespace and lower-case the attribute name. -/
def attr_common_view (attr : String) : String :=
  String.mk ((attr.data.filter (fun c => !c.isWhitespace)).map Char.toLower)

/-- Raw and encoded form of one credential attribute value
(`indy_data_types::anoncreds::credential::AttributeValues`). -/
structure AttributeValues where
  raw : String
  encoded : String
deriving Repr, DecidableEq

/-- One credential as used by the prover service. CL-opaque fields
(`signature`, `signature_correctness_proof`, `rev_reg`, `witness`) are `Nat`
stand-ins; identifiers are strings. -/
structure Credential where
  schema_id : String
  cred_def_id : String
  rev_reg_id : Option String
  values : List (String × AttributeValues)
  signature : Nat
  signature_correctness_proof : Nat
  rev_reg : Option Nat
  witness : Option Nat
deriving Repr, DecidableEq

/-- Schema payload (`SchemaV1`). -/
structure SchemaV1 where
  id : String
  name : String
  version : String
  attr_names : List String
  seq_no : Option Nat
deriving Repr, DecidableEq

/-- Versioned schema wrapper. -/
inductive Schema where
  | SchemaV1 (s : SchemaV1)
deriving Repr, DecidableEq

/-- Signature type of a credential definition (`cred_def.rs`); only CL exists. -/
inductive SignatureType where
  | CL
deriving Repr, DecidableEq

/-- Public key material of a credential definition (`CredentialDefinitionData`
of `cred_def.rs`); the CL keys are `Nat` stand-ins. -/
structure CredentialDefinitionData where
  primary : Nat
  revocation : Option Nat
deriving Repr, DecidableEq

/-- Credential definition payload (`CredentialDefinitionV1` of `cred_def.rs`). -/
structure CredentialDefinitionV1 where
  id : String
  schema_id : String
  signature_type : SignatureType
  tag : String
  value : CredentialDefinitionData
deriving Repr, DecidableEq

/-- Versioned credential definition wrapper (`cred_def.rs`). -/
inductive CredentialDefinition where
  | CredentialDefinitionV1 (c : CredentialDefinitionV1)
deriving Repr, DecidableEq

/-- Credential offer consumed by `create_credential_request`; the key
correctness proof and nonce are `Nat` stand-ins. -/
structure CredentialOffer where
  schema_id : String
  cred_def_id : String
  key_correctness_proof : Nat
  nonce : Nat
deriving Repr, DecidableEq

/-- Credential request (`cred_request.rs`). -/
structure CredentialRequest where
  prover_did : String
  cred_def_id : String
  blinded_ms : Nat
  blinded_ms_correctness_proof : Nat
  nonce : Nat
deriving Repr, DecidableEq

/-- Credential request metadata (`cred_request.rs`). -/
structure CredentialRequestMetadata where
  master_secret_blinding_data : Nat
  nonce : Nat
  master_secret_name : String
deriving Repr, DecidableEq

/-- Per-credential revocation state (`CredentialRevocationState`); witness and
accumulator are `Nat` stand-ins. -/
structure CredentialRevocationState where
  witness : Nat
  rev_reg : Nat
  timestamp : Nat
deriving Repr, DecidableEq

/-- Requested-attribute payload of a presentation request
(`pres_request::AttributeInfo`, restrictions elided as they are unused by the
embedded code paths). -/
structure AttributeInfo where
  name : Option String
  names : Option (List String)
deriving Repr, DecidableEq

/-- Predicate comparison operator (`pres_request::PredicateTypes`). -/
inductive PredicateTypes where
  | GE
  | LE
  | GT
  | LT
deriving Repr, DecidableEq

/-- Modelled from the spec: the `Display` rendering of `PredicateTypes` (the
`impl` lives in `pres_request.rs`, not under `src/`): the canonical strings
GE, LE, GT, LT. -/
def PredicateTypes.render : PredicateTypes → String
  | .GE => "GE"
  | .LE => "LE"
  | .GT => "GT"
  | .LT => "LT"

/-- Requested-predicate payload of a presentation request
(`pres_request::PredicateInfo`, restrictions elided). -/
structure PredicateInfo where
  name : String
  p_type : PredicateTypes
  p_value : Int
deriving Repr, DecidableEq

/-- Presentation request payload shared by the V1 and V2 wrappers. -/
structure PresentationRequestPayload where
  nonce : Nat
  name : String
  version : String
  requested_attributes : List (String × AttributeInfo)
  requested_predicates : List (String × PredicateInfo)
deriving Repr, DecidableEq

/-- Versioned presentation request (V1 or V2, same payload). -/
inductive PresentationRequest where
  | PresentationRequestV1 (v : PresentationRequestPayload)
  | PresentationRequestV2 (v : PresentationRequestPayload)
deriving Repr, DecidableEq

/-- Payload accessor, mirroring `PresentationRequest::value`. -/
def PresentationRequest.value : PresentationRequest → PresentationRequestPayload
  | .PresentationRequestV1 v => v
  | .PresentationRequestV2 v => v

/-- A requested attribute joined with its request payload
(`pres_request::RequestedAttributeInfo`). -/
structure RequestedAttributeInfo where
  attr_referent : String
  attr_info : AttributeInfo
  revealed : Bool
deriving Repr, DecidableEq

/-- A requested predicate joined with its request payload
(`pres_request::RequestedPredicateInfo`). -/
structure RequestedPredicateInfo where
  predicate_referent : String
  predicate_info : PredicateInfo
deriving Repr, DecidableEq

/-- One entry of a `PresentCredentials` collection. Modelled from the spec
(§4.5; the defining module `services/types.rs` is not under `src/`): a
credential, an optional timestamp, an optional revocation state, a set of
(referent, reveal) pairs and a set of predicate referents. -/
structure PresentCredential where
  cred : Credential
  timestamp : Option Nat
  rev_state : Option CredentialRevocationState
  requested_attributes : List (String × Bool)
  requested_predicates : List String
deriving Repr, DecidableEq

/-- Modelled from the spec: an entry is empty when both its referent sets are
empty. -/
def PresentCredential.is_empty (p : PresentCredential) : Bool :=
  p.requested_attributes.isEmpty && p.requested_predicates.isEmpty

/-- The credential mapping passed to `create_presentation`. Modelled from the
spec (§4.5). -/
structure PresentCredentials where
  creds : List PresentCredential
deriving Repr, DecidableEq

/-- Modelled from the spec: the collection is empty when it holds no entries. -/
def PresentCredentials.is_empty (pc : PresentCredentials) : Bool :=
  pc.creds.isEmpty

/-- All referents claimed by a `PresentCredentials` collection, attributes and
predicates together, in entry order. -/
def PresentCredentials.referents (pc : PresentCredentials) : List String :=
  pc.creds.flatMap (fun c => c.requested_attributes.map Prod.fst ++ c.requested_predicates)

/-- Modelled from the spec: `PresentCredentials::validate` fails with an
`Input` error when any referent appears twice across the collection. -/
def PresentCredentials.validate (pc : PresentCredentials) : Except Err Unit :=
  if pc.referents.Nodup then .ok () else .error .duplicateReferent

/-- A CL sub-proof request as assembled by the sub-proof-request builder:
revealed attribute names and `(name, p_type, p_value)` predicates, in the
order the builder received them. -/
structure SubProofRequest where
  revealed_attrs : List String
  predicates : List (String × String × Int)
deriving Repr, DecidableEq

/-- Builder step `add_revealed_attr` of the CL sub-proof-request builder. -/
def SubProofRequest.add_revealed_attr (b : SubProofRequest) (name : String) : SubProofRequest :=
  { b with revealed_attrs := b.revealed_attrs ++ [name] }

/-- Builder step `add_predicate` of the CL sub-proof-request builder. -/
def SubProofRequest.add_predicate (b : SubProofRequest) (name p_type : String)
    (p_value : Int) : SubProofRequest :=
  { b with predicates := b.predicates ++ [(name, p_type, p_value)] }

/-- Embedding of `build_sub_proof_request` (`prover.rs`): feed every revealed
requested attribute (single `name`, or each member of `names`) and every
requested predicate to the sub-proof-request builder, normalizing names with
`attr_common_view` and rendering the predicate type. -/
def build_sub_proof_request (req_attrs_for_credential : List RequestedAttributeInfo)
    (req_predicates_for_credential : List RequestedPredicateInfo) : SubProofRequest :=
  let b : SubProofRequest := { revealed_attrs := [], predicates := [] }
  let b := req_attrs_for_credential.foldl (fun b attr =>
    if attr.revealed then
      match attr.attr_info.name with
      | some name => b.add_revealed_attr (attr_common_view name)
      | none =>
        match attr.attr_info.names with
        | some names => names.foldl (fun b name => b.add_revealed_attr (attr_common_view name)) b
        | none => b
    else b) b
  req_predicates_for_credential.foldl (fun b predicate =>
    b.add_predicate (attr_common_view predicate.predicate_info.name)
      predicate.predicate_info.p_type.render predicate.predicate_info.p_value) b

/-- The attribute loop of `prepare_credential_for_proving` (`prover.rs`):
resolve each attribute referent against the request payload, in order, failing
with an `Input` error on an unknown referent. -/
def prepare_requested_attributes (pres_req : PresentationRequestPayload) :
    List (String × Bool) → Except Err (List RequestedAttributeInfo)
  | [] => .ok []
  | ar :: rest =>
    match alookup pres_req.requested_attributes ar.1 with
    | none => .error (.attributeInfoNotFound ar.1)
    | some attr_info =>
      match prepare_requested_attributes pres_req rest with
      | .error e => .error e
      | .ok attrs =>
        .ok ({ attr_referent := ar.1, attr_info := attr_info, revealed := ar.2 } :: attrs)

/-- The predicate loop of `prepare_credential_for_proving` (`prover.rs`). -/
def prepare_requested_predicates (pres_req : PresentationRequestPayload) :
    List String → Except Err (List RequestedPredicateInfo)
  | [] => .ok []
  | predicate_referent :: rest =>
    match alookup pres_req.requested_predicates predicate_referent with
    | none => .error (.predicateInfoNotFound predicate_referent)
    | some predicate_info =>
      match prepare_requested_predicates pres_req rest with
      | .error e => .error e
      | .ok preds =>
        .ok ({ predicate_referent := predicate_referent,
               predicate_info := predicate_info } :: preds)

/-- Embedding of `prepare_credential_for_proving` (`prover.rs`): resolve each
referent of the entry against the presentation request payload, failing with
an `Input` error on an unknown referent. -/
def prepare_credential_for_proving (requested_attributes : List (String × Bool))
    (requested_predicates : List String) (pres_req : PresentationRequestPayload) :
    Except Err (List RequestedAttributeInfo × List RequestedPredicateInfo) :=
  match prepare_requested_attributes pres_req requested_attributes with
  | .error e => .error e
  | .ok attrs =>
    match prepare_requested_predicates pres_req requested_predicates with
    | .error e => .error e
    | .ok preds => .ok (attrs, preds)

/-- Embedding of `get_credential_values_for_attribute` (`prover.rs`): find a
credential value whose key has the same `attr_common_view` normalization as
the requested name. -/
def get_credential_values_for_attribute (credential_attrs : List (String × AttributeValues))
    (requested_attr : String) : Option AttributeValues :=
  (credential_attrs.find?
    (fun kv => attr_common_view kv.1 == attr_common_view requested_attr)).map Prod.snd

/-- One revealed-attribute row of `requested_proof.revealed_attrs`. -/
structure RevealedAttributeInfo where
  sub_proof_index : Nat
  raw : String
  encoded : String
deriving Repr, DecidableEq

/-- One row of `requested_proof.revealed_attr_groups`. -/
structure RevealedAttributeGroupInfo where
  sub_proof_index : Nat
  values : List (String × AttributeValues)
deriving Repr, DecidableEq

/-- A bare sub-proof-index row (`unrevealed_attrs` and `predicates`). -/
structure SubProofReferent where
  sub_proof_index : Nat
deriving Repr, DecidableEq

/-- The `RequestedProof` tables of a presentation. -/
structure RequestedProof where
  revealed_attrs : List (String × RevealedAttributeInfo)
  revealed_attr_groups : List (String × RevealedAttributeGroupInfo)
  self_attested_attrs : List (String × String)
  unrevealed_attrs : List (String × SubProofReferent)
  predicates : List (String × SubProofReferent)
deriving Repr, DecidableEq

/-- The default (empty) `RequestedProof`. -/
def RequestedProof.empty : RequestedProof :=
  { revealed_attrs := [], revealed_attr_groups := [], self_attested_attrs := [],
    unrevealed_attrs := [], predicates := [] }

/-- The value-collection loop for a revealed `names` attribute in
`update_requested_proof` (`prover.rs`): resolve each name against the
credential values, failing with an `Input` error on a missing value. -/
def collect_group_values (credential_values : List (String × AttributeValues)) :
    List String → List (String × AttributeValues) →
    Except Err (List (String × AttributeValues))
  | [], value_map => .ok value_map
  | name :: rest, value_map =>
    match get_credential_values_for_attribute credential_values name with
    | none => .error (.credentialValueNotFound name)
    | some attr_value =>
      collect_group_values credential_values rest
        (ainsert value_map name { raw := attr_value.raw, encoded := attr_value.encoded })

/-- Processing of one requested attribute by `update_requested_proof`
(`prover.rs`): a revealed single-name attribute is resolved against the
credential values (missing value is an `Input` error), a revealed `names`
attribute collects one value per name into a group row, and an unrevealed
attribute only records its sub-proof index. The `missingAttributeReferent`
error models the panic of the Rust `HashMap` indexing
`proof_req.requested_attributes[&referent]`, unreachable from
`create_presentation` because `prepare_credential_for_proving` resolved the
same referent already. -/
def update_requested_proof_attr (proof_req : PresentationRequestPayload)
    (credential : Credential) (sub_proof_index : Nat)
    (attr_info : RequestedAttributeInfo) (requested_proof : RequestedProof) :
    Except Err RequestedProof :=
  if attr_info.revealed then
    match alookup proof_req.requested_attributes attr_info.attr_referent with
    | none => .error (.missingAttributeReferent attr_info.attr_referent)
    | some attr_entry =>
      match attr_entry.name with
      | some name =>
        match get_credential_values_for_attribute credential.values name with
        | none => .error (.credentialValueNotFound name)
        | some attribute_values =>
          .ok { requested_proof with
                revealed_attrs := ainsert requested_proof.revealed_attrs attr_info.attr_referent
                  { sub_proof_index := sub_proof_index,
                    raw := attribute_values.raw, encoded := attribute_values.encoded } }
      | none =>
        match attr_entry.names with
        | some names =>
          match collect_group_values credential.values names [] with
          | .error e => .error e
          | .ok value_map =>
            .ok { requested_proof with
                  revealed_attr_groups := ainsert requested_proof.revealed_attr_groups
                    attr_info.attr_referent
                    { sub_proof_index := sub_proof_index, values := value_map } }
        | none => .ok requested_proof
  else
    .ok { requested_proof with
          unrevealed_attrs := ainsert requested_proof.unrevealed_attrs attr_info.attr_referent
            { sub_proof_index := sub_proof_index } }

/-- The attribute loop of `update_requested_proof` (`prover.rs`). -/
def update_requested_proof_attrs (proof_req : PresentationRequestPayload)
    (credential : Credential) (sub_proof_index : Nat) :
    List RequestedAttributeInfo → RequestedProof → Except Err RequestedProof
  | [], requested_proof => .ok requested_proof
  | attr_info :: rest, requested_proof =>
    match update_requested_proof_attr proof_req credential sub_proof_index
        attr_info requested_proof with
    | .error e => .error e
    | .ok rp => update_requested_proof_attrs proof_req credential sub_proof_index rest rp

/-- The predicate loop of `update_requested_proof` (`prover.rs`): record the
sub-proof index under each predicate referent. -/
def update_requested_proof_preds (sub_proof_index : Nat) :
    List RequestedPredicateInfo → RequestedProof → RequestedProof
  | [], requested_proof => requested_proof
  | predicate_info :: rest, requested_proof =>
    update_requested_proof_preds sub_proof_index rest
      { requested_proof with
        predicates := ainsert requested_proof.predicates predicate_info.predicate_referent
          { sub_proof_index := sub_proof_index } }

/-- Embedding of `update_requested_proof` (`prover.rs`): process each requested
attribute, then record the sub-proof index for each requested predicate. -/
def update_requested_proof (req_attrs_for_credential : List RequestedAttributeInfo)
    (req_predicates_for_credential : List RequestedPredicateInfo)
    (proof_req : PresentationRequestPayload) (credential : Credential)
    (sub_proof_index : Nat) (requested_proof : RequestedProof) :
    Except Err RequestedProof :=
  match update_requested_proof_attrs proof_req credential sub_proof_index
      req_attrs_for_credential requested_proof with
  | .error e => .error e
  | .ok rp =>
    .ok (update_requested_proof_preds sub_proof_index req_predicates_for_credential rp)

/-- One entry of a presentation's `identifiers` list. -/
structure Identifier where
  schema_id : String
  cred_def_id : String
  rev_reg_id : Option String
  timestamp : Option Nat
deriving Repr, DecidableEq

/-- The `Identifier` emitted for one credential entry by `create_presentation`
(`prover.rs`): a V1 request coerces `schema_id`, `cred_def_id` and (when
present) `rev_reg_id` through `to_unqualified` (the identifier-qualification
projection, taken here as the function argument `uq`); a V2 request keeps them
unchanged. The timestamp is always the entry's timestamp. -/
def identifier_for (pres_req : PresentationRequest) (uq : String → String)
    (present : PresentCredential) : Identifier :=
  match pres_req with
  | .PresentationRequestV1 _ =>
    { schema_id := uq present.cred.schema_id,
      cred_def_id := uq present.cred.cred_def_id,
      rev_reg_id := present.cred.rev_reg_id.map uq,
      timestamp := present.timestamp }
  | .PresentationRequestV2 _ =>
    { schema_id := present.cred.schema_id,
      cred_def_id := present.cred.cred_def_id,
      rev_reg_id := present.cred.rev_reg_id,
      timestamp := present.timestamp }

/-- The CL credential-values structure of `build_credential_values`
(`services/helpers.rs`, not under `src/`). Modelled from the spec (§4.3): all
credential attributes as known values, plus `master_secret` as a hidden value
holding the link secret when one is supplied. -/
structure ClCredentialValues where
  known : List (String × AttributeValues)
  hidden_master_secret : Option Nat
deriving Repr, DecidableEq

/-- Modelled from the spec: `build_credential_values` of `services/helpers.rs`
(not under `src/`). -/
def build_credential_values (values : List (String × AttributeValues))
    (master_secret : Option Nat) : ClCredentialValues :=
  { known := values, hidden_master_secret := master_secret }

/-- One sub-proof recorded by the CL proof builder's `add_sub_proof_request`:
the data the builder receives for one credential. CL-opaque values are `Nat`
stand-ins. -/
structure SubProof where
  sub_proof_request : SubProofRequest
  credential_schema : List String
  credential_values : ClCredentialValues
  signature : Nat
  pub_key : CredentialDefinitionData
  rev_reg : Option Nat
  witness : Option Nat
deriving Repr, DecidableEq

/-- The aggregate proof assembled by the CL proof builder: the common hidden
attributes, the sub-proofs in the order added, and the nonce passed to
`finalize`. -/
structure ClProof where
  common_attributes : List String
  sub_proofs : List SubProof
  nonce : Nat
deriving Repr, DecidableEq

/-- A full presentation. -/
structure Presentation where
  proof : ClProof
  requested_proof : RequestedProof
  identifiers : List Identifier
deriving Repr, DecidableEq

/-- The per-entry loop of `create_presentation` (`prover.rs`): entries with
empty referent sets are skipped; every other entry is resolved against the
trusted schema and credential-definition maps, a sub-proof and an identifier
are appended, the `RequestedProof` tables are updated, and `sub_proof_index`
is incremented. -/
def present_entries (uq : String → String) (pres_req : PresentationRequest)
    (pres_req_val : PresentationRequestPayload) (link_secret : Nat)
    (schemas : List (String × Schema))
    (cred_defs : List (String × CredentialDefinition)) :
    List PresentCredential → Nat → List Identifier → List SubProof → RequestedProof →
    Except Err (List Identifier × List SubProof × RequestedProof)
  | [], _, identifiers, sub_proofs, requested_proof =>
    .ok (identifiers, sub_proofs, requested_proof)
  | present :: rest, sub_proof_index, identifiers, sub_proofs, requested_proof =>
    if present.is_empty then
      present_entries uq pres_req pres_req_val link_secret schemas cred_defs rest
        sub_proof_index identifiers sub_proofs requested_proof
    else
      match alookup schemas present.cred.schema_id with
      | none => .error (.schemaNotProvided present.cred.schema_id)
      | some schema =>
        match alookup cred_defs present.cred.cred_def_id with
        | none => .error (.credDefNotProvided present.cred.cred_def_id)
        | some cred_def =>
          match schema, cred_def with
          | .SchemaV1 schema, .CredentialDefinitionV1 cred_def =>
            match prepare_credential_for_proving present.requested_attributes
                present.requested_predicates pres_req_val with
            | .error e => .error e
            | .ok (req_attrs, req_predicates) =>
              match update_requested_proof req_attrs req_predicates pres_req_val
                  present.cred sub_proof_index requested_proof with
              | .error e => .error e
              | .ok requested_proof =>
                present_entries uq pres_req pres_req_val link_secret schemas cred_defs rest
                  (sub_proof_index + 1)
                  (identifiers ++ [identifier_for pres_req uq present])
                  (sub_proofs ++ [{
                    sub_proof_request := build_sub_proof_request req_attrs req_predicates,
                    credential_schema := schema.attr_names,
                    credential_values :=
                      build_credential_values present.cred.values (some link_secret),
                    signature := present.cred.signature,
                    pub_key := cred_def.value,
                    rev_reg := present.rev_state.map CredentialRevocationState.rev_reg,
                    witness := present.rev_state.map CredentialRevocationState.witness }])
                  requested_proof

/-- Truth of the emptiness precondition of `create_presentation` (`prover.rs`):
no credential mapping and no (or an empty) self-attested map. -/
def empty_inputs_check (credentials : PresentCredentials)
    (self_attested : Option (List (String × String))) : Bool :=
  credentials.is_empty &&
    (match self_attested with
     | some m => m.isEmpty
     | none => true)

/-- Embedding of `create_presentation` (`prover.rs`). The identifier
qualification projection `uq` abstracts `to_unqualified` of the identifier
types (defined outside the embedded sources); the link secret is a `Nat`
stand-in that the CL black box would consume. -/
def create_presentation (uq : String → String) (pres_req : PresentationRequest)
    (credentials : PresentCredentials)
    (self_attested : Option (List (String × String)))
    (link_secret : Nat)
    (schemas : List (String × Schema))
    (cred_defs : List (String × CredentialDefinition)) :
    Except Err Presentation :=
  if empty_inputs_check credentials self_attested then
    .error .noCredentialMapping
  else
    match credentials.validate with
    | .error e => .error e
    | .ok _ =>
      let pres_req_val := pres_req.value
      let requested_proof :=
        { RequestedProof.empty with
          self_attested_attrs := self_attested.getD [] }
      match present_entries uq pres_req pres_req_val link_secret schemas cred_defs
          credentials.creds 0 [] [] requested_proof with
      | .error e => .error e
      | .ok (identifiers, sub_proofs, requested_proof) =>
        .ok { proof := { common_attributes := ["master_secret"],
                         sub_proofs := sub_proofs,
                         nonce := pres_req_val.nonce },
              requested_proof := requested_proof,
              identifiers := identifiers }

/-- The CL adapter's `CredentialPublicKey::build_from_parts`, modelled as the
pairing of the primary and optional revocation key parts. -/
def build_from_parts (primary : Nat) (revocation : Option Nat) : Nat × Option Nat :=
  (primary, revocation)

/-- The hidden CL credential values built by `create_credential_request`: the
single hidden value `master_secret` bound to the link secret. -/
def master_secret_values (link_secret : Nat) : List (String × Nat) :=
  [("master_secret", link_secret)]

/-- Type of the CL black box `Prover::blind_credential_secrets`: public key,
key correctness proof, hidden values, offer nonce; returns the blinded master
secret, the blinding data and the blinding correctness proof. -/
def BlindFn : Type :=
  Nat × Option Nat → Nat → List (String × Nat) → Nat → Except Err (Nat × Nat × Nat)

/-- Embedding of `create_credential_request` (`prover.rs`). The fresh nonce
drawn from the CSPRNG is the explicit argument `fresh_nonce`; its `try_clone`
copy has the same value. The CL blinding operation is the argument `blind`. -/
def create_credential_request (blind : BlindFn) (prover_did : String)
    (cred_def : CredentialDefinition) (link_secret : Nat) (link_secret_id : String)
    (credential_offer : CredentialOffer) (fresh_nonce : Nat) :
    Except Err (CredentialRequest × CredentialRequestMetadata) :=
  match cred_def with
  | .CredentialDefinitionV1 cred_def =>
    let credential_pub_key := build_from_parts cred_def.value.primary cred_def.value.revocation
    let cred_values := master_secret_values link_secret
    let nonce := fresh_nonce
    let nonce_copy := nonce
    match blind credential_pub_key credential_offer.key_correctness_proof cred_values
        credential_offer.nonce with
    | .error e => .error e
    | .ok (blinded_ms, master_secret_blinding_data, blinded_ms_correctness_proof) =>
      .ok ({ prover_did := prover_did,
             cred_def_id := credential_offer.cred_def_id,
             blinded_ms := blinded_ms,
             blinded_ms_correctness_proof := blinded_ms_correctness_proof,
             nonce := nonce },
           { master_secret_blinding_data := master_secret_blinding_data,
             nonce := nonce_copy,
             master_secret_name := link_secret_id })

/-- Revocation registry definition payload; only the fields read by the
embedded code (`get_id` in `ffi/revocation.rs`, the accumulator public key in
`process_credential`) are retained. -/
structure RevocationRegistryDefinitionV1 where
  id : String
  accum_key : Nat
deriving Repr, DecidableEq

/-- Versioned revocation registry definition wrapper. -/
inductive RevocationRegistryDefinition where
  | RevocationRegistryDefinitionV1 (r : RevocationRegistryDefinitionV1)
deriving Repr, DecidableEq

/-- Embedding of `IndyObjectId::get_id` for `RevocationRegistryDefinition`
(`ffi/revocation.rs`). -/
def RevocationRegistryDefinition.get_id : RevocationRegistryDefinition → String
  | .RevocationRegistryDefinitionV1 r => r.id

/-- Type of the CL black box `Prover::process_credential_signature`, as seen
through the borrow structure of `process_credential`: it receives the mutably
borrowed signature together with the shared-borrowed inputs (credential
values, signature correctness proof, blinding data, public key, nonce,
optional revocation public key, optional revocation registry, optional
witness) and leaves behind a final signature value and an optional error. -/
def ProcessSignatureFn : Type :=
  Nat → ClCredentialValues → Nat → Nat → Nat × Option Nat → Nat →
    Option Nat → Option Nat → Option Nat → Nat × Option Err

/-- Embedding of `process_credential` (`prover.rs`): rebuild the public key
and the credential values, resolve the optional revocation public key, and
hand only the signature field to the CL black box by mutable borrow; every
other credential field and every other argument is shared-borrowed. The
returned pair is the credential as left behind by the call and the optional
error. -/
def process_credential (clProcess : ProcessSignatureFn) (credential : Credential)
    (cred_request_metadata : CredentialRequestMetadata) (link_secret : Nat)
    (cred_def : CredentialDefinition)
    (rev_reg_def : Option RevocationRegistryDefinition) : Credential × Option Err :=
  match cred_def with
  | .CredentialDefinitionV1 cred_def =>
    let credential_pub_key := build_from_parts cred_def.value.primary cred_def.value.revocation
    let rev_pub_key := match rev_reg_def with
      | some (.RevocationRegistryDefinitionV1 def_v1) => some def_v1.accum_key
      | none => none
    let credential_values := build_credential_values credential.values (some link_secret)
    let step := clProcess credential.signature credential_values
      credential.signature_correctness_proof cred_request_metadata.master_secret_blinding_data
      credential_pub_key cred_request_metadata.nonce rev_pub_key
      credential.rev_reg credential.witness
    ({ credential with signature := step.1 }, step.2)

/-- State of the FFI object boundary (`ffi/object.rs`): the atomic handle
counter `FFI_OBJECT_COUNTER` and the `FFI_OBJECTS` map from handles to stored
objects. The registry is polymorphic in the stored object type; handles are
the positive integers. -/
structure FfiObjects (α : Type) where
  counter : Nat
  objects : List (Nat × α)
deriving Repr, DecidableEq

namespace ObjectHandle

/-- Embedding of `ObjectHandle::next` (`ffi/object.rs`): bump the atomic
counter and return the fresh handle (`fetch_add` returns the previous value,
so the handle is the incremented counter). -/
def next {α : Type} (r : FfiObjects α) : FfiObjects α × Nat :=
  ({ r with counter := r.counter + 1 }, r.counter + 1)

/-- Embedding of `ObjectHandle::create` (`ffi/object.rs`): draw a fresh handle
and insert the value into the registry under it. The lock acquisition of the
source, the only failure mode, is not modelled. -/
def create {α : Type} (r : FfiObjects α) (value : α) : FfiObjects α × Nat :=
  let step := next r
  ({ step.1 with objects := ainsert step.1.objects step.2 value }, step.2)

/-- Embedding of `ObjectHandle::load` (`ffi/object.rs`): return the stored
object (a clone of the registry's shared reference), or an `Input` error for
an unknown handle. -/
def load {α : Type} (r : FfiObjects α) (handle : Nat) : Except Err α :=
  match alookup r.objects handle with
  | some obj => .ok obj
  | none => .error .invalidObjectHandle

/-- Embedding of `ObjectHandle::remove` (`ffi/object.rs`): take the stored
object out of the registry, or fail with an `Input` error for an unknown
handle. -/
def remove {α : Type} (r : FfiObjects α) (handle : Nat) :
    Except Err (FfiObjects α × α) :=
  match alookup r.objects handle with
  | some obj =>
    .ok ({ r with objects := r.objects.filter (fun p => !(p.1 == handle)) }, obj)
  | none => .error .invalidObjectHandle

end ObjectHandle

/-- Embedding of `credx_object_free` (`ffi/object.rs`): `handle.remove().ok()`
drops the removed object and discards any error, leaving the registry
untouched when the handle is unknown. -/
def credx_object_free {α : Type} (r : FfiObjects α) (handle : Nat) : FfiObjects α :=
  match ObjectHandle.remove r handle with
  | .ok (r', _) => r'
  | .error _ => r

/-- The revocation-entry collection loop of `_credx_verify_presentation`
(`ffi/presentation.rs`): each loaded `FfiRevocationEntry` is a
`(def_entry_idx, registry, timestamp)` triple (the registry accumulator is a
`Nat` stand-in). An index strictly greater than the number of supplied
revocation registry definitions is rejected with an `Input` error; otherwise
the definition list is indexed, which in Rust panics for `idx ==
rev_reg_defs.len()` — modelled by the `vecIndexOutOfBounds` error. Accepted
entries are keyed by registry id and timestamp. -/
def collect_rev_regs (rev_reg_defs : List RevocationRegistryDefinition) :
    List (Nat × Nat × Nat) → List (String × List (Nat × Nat)) →
    Except Err (List (String × List (Nat × Nat)))
  | [], rev_regs => .ok rev_regs
  | (idx, entry, timestamp) :: rest, rev_regs =>
    if idx > rev_reg_defs.length then
      .error .invalidRevRegIndex
    else
      match rev_reg_defs[idx]? with
      | none => .error .vecIndexOutOfBounds
      | some def_entry =>
        let id := def_entry.get_id
        let timestamps := (alookup rev_regs id).getD []
        collect_rev_regs rev_reg_defs rest
          (ainsert rev_regs id (ainsert timestamps timestamp entry))

/-! Helper lemmas about association lists. -/

theorem alookup_nil {α β : Type} [BEq α] (k : α) : alookup ([] : List (α × β)) k = none := rfl

theorem alookup_cons {α β : Type} [BEq α] (p : α × β) (l : List (α × β)) (k : α) :
    alookup (p :: l) k = if p.1 == k then some p.2 else alookup l k := by
  by_cases h : p.1 == k
  · simp [alookup, List.find?, h]
  · simp only [Bool.not_eq_true] at h
    simp [alookup, List.find?, h]

theorem alookup_filter_out {α β : Type} [BEq α] (l : List (α × β)) (k : α) :
    alookup (l.filter (fun p => !(p.1 == k))) k = none := by
  induction l with
  | nil => rfl
  | cons p t ih =>
    by_cases h : p.1 == k
    · simpa [List.filter, h] using ih
    · simp only [Bool.not_eq_true] at h
      simp [List.filter, h, alookup_cons, ih]

theorem alookup_ainsert_self {α β : Type} [BEq α] [LawfulBEq α] (l : List (α × β))
    (k : α) (v : β) : alookup (ainsert l k v) k = some v := by
  unfold ainsert
  induction l with
  | nil => simp [alookup_cons]
  | cons p t ih =>
    by_cases h : p.1 == k
    · simpa [List.filter, h] using ih
    · simp only [Bool.not_eq_true] at h
      simp [List.filter, h, alookup_cons, ih]

/-! Claim C8: the registry returns the stored object, and a removed handle no
longer loads. -/

/-- C8. After `h := ObjectHandle::create(x)`, `load(h)` returns the stored
object `x`; after `remove(h)`, a subsequent `load(h)` fails with an `Input`
error. -/
theorem object_registry_create_load_remove {α : Type} (r : FfiObjects α) (x : α) :
    ObjectHandle.load (ObjectHandle.create r x).1 (ObjectHandle.create r x).2 = .ok x ∧
    ∃ r', ObjectHandle.remove (ObjectHandle.create r x).1 (ObjectHandle.create r x).2 =
        .ok (r', x) ∧
      ObjectHandle.load r' (ObjectHandle.create r x).2 = .error .invalidObjectHandle := by
  refine ⟨?_, ?_⟩
  · simp [ObjectHandle.create, ObjectHandle.next, ObjectHandle.load, alookup_ainsert_self]
  · refine ⟨{ counter := r.counter + 1,
              objects := (ainsert r.objects (r.counter + 1) x).filter
                (fun p => !(p.1 == r.counter + 1)) }, ?_, ?_⟩
    · simp [ObjectHandle.create, ObjectHandle.next, ObjectHandle.remove, alookup_ainsert_self]
    · simp [ObjectHandle.create, ObjectHandle.next, ObjectHandle.load, ObjectHandle.remove,
        alookup_filter_out]

/-! Claim C9: freeing an unknown handle is silent and leaves the registry
unchanged. -/

/-- C9. For a handle not present in the registry, `credx_object_free` reports
no error and leaves the registry unchanged, while the underlying
`ObjectHandle::remove` it swallows fails with an `Input` error. -/
theorem object_free_unknown_handle_silent {α : Type} (r : FfiObjects α) (handle : Nat)
    (h : alookup r.objects handle = none) :
    credx_object_free r handle = r ∧
    ObjectHandle.remove r handle = .error .invalidObjectHandle := by
  constructor
  · simp [credx_object_free, ObjectHandle.remove, h]
  · simp [ObjectHandle.remove, h]

/-- Witness for C9 at the empty registry and handle 5. -/
theorem object_free_unknown_handle_silent_witness :
    alookup (FfiObjects.objects { counter := 0, objects := ([] : List (Nat × Nat)) }) 5 = none ∧
    credx_object_free { counter := 0, objects := ([] : List (Nat × Nat)) } 5 =
      { counter := 0, objects := ([] : List (Nat × Nat)) } :=
  ⟨rfl, (object_free_unknown_handle_silent
    { counter := 0, objects := ([] : List (Nat × Nat)) } 5 rfl).1⟩

/-! Claim C10: `process_credential` mutates only the signature field. -/

/-- C10. For every behaviour of the CL black box, `process_credential` leaves
every credential field other than `signature` unchanged, whether the call
succeeds or fails; the metadata, link secret, credential definition and
revocation-registry-definition arguments are shared borrows in the source and
are unchanged by construction. -/
theorem process_credential_frame (clProcess : ProcessSignatureFn) (credential : Credential)
    (cred_request_metadata : CredentialRequestMetadata) (link_secret : Nat)
    (cred_def : CredentialDefinition)
    (rev_reg_def : Option RevocationRegistryDefinition) :
    (process_credential clProcess credential cred_request_metadata link_secret cred_def
        rev_reg_def).1.schema_id = credential.schema_id ∧
    (process_credential clProcess credential cred_request_metadata link_secret cred_def
        rev_reg_def).1.cred_def_id = credential.cred_def_id ∧
    (process_credential clProcess credential cred_request_metadata link_secret cred_def
        rev_reg_def).1.rev_reg_id = credential.rev_reg_id ∧
    (process_credential clProcess credential cred_request_metadata link_secret cred_def
        rev_reg_def).1.values = credential.values ∧
    (process_credential clProcess credential cred_request_metadata link_secret cred_def
        rev_reg_def).1.signature_correctness_proof = credential.signature_correctness_proof ∧
    (process_credential clProcess credential cred_request_metadata link_secret cred_def
        rev_reg_def).1.rev_reg = credential.rev_reg ∧
    (process_credential clProcess credential cred_request_metadata link_secret cred_def
        rev_reg_def).1.witness = credential.witness := by
  cases cred_def with
  | CredentialDefinitionV1 cd => simp [process_credential]

/-! Claim C6: `create_credential_request` returns matching nonces and copies
the offer and caller identifiers. -/

/-- C6. Every successful `create_credential_request` returns a request and
metadata with equal nonces, the request's `cred_def_id` equal to the offer's,
the request's `prover_did` equal to the supplied DID, and the metadata's
`master_secret_name` equal to the supplied link secret id. -/
theorem create_credential_request_result_fields (blind : BlindFn) (prover_did : String)
    (cred_def : CredentialDefinition) (link_secret : Nat) (link_secret_id : String)
    (credential_offer : CredentialOffer) (fresh_nonce : Nat)
    (req : CredentialRequest) (meta : CredentialRequestMetadata)
    (h : create_credential_request blind prover_did cred_def link_secret link_secret_id
        credential_offer fresh_nonce = .ok (req, meta)) :
    req.nonce = meta.nonce ∧
    req.cred_def_id = credential_offer.cred_def_id ∧
    req.prover_did = prover_did ∧
    meta.master_secret_name = link_secret_id := by
  cases cred_def with
  | CredentialDefinitionV1 cd =>
    simp only [create_credential_request] at h
    cases hb : blind (build_from_parts cd.value.primary cd.value.revocation)
        credential_offer.key_correctness_proof (master_secret_values link_secret)
        credential_offer.nonce with
    | error e => simp [hb] at h
    | ok triple =>
      obtain ⟨bms, bd, bp⟩ := triple
      simp [hb] at h
      obtain ⟨h1, h2⟩ := h
      subst h1
      subst h2
      exact ⟨rfl, rfl, rfl, rfl⟩

/-- A sample CL blinding function for the C6 witness. -/
def sample_blind : BlindFn := fun _ _ _ _ => .ok (11, 12, 13)

/-- A sample credential definition. -/
def sample_cred_def_v1 : CredentialDefinitionV1 :=
  { id := "CD", schema_id := "S", signature_type := .CL, tag := "tag",
    value := { primary := 5, revocation := none } }

/-- A sample credential offer. -/
def sample_offer : CredentialOffer :=
  { schema_id := "S", cred_def_id := "CD", key_correctness_proof := 3, nonce := 77 }

/-- Witness for C6 at a concrete blinding function, offer and nonce. -/
theorem create_credential_request_result_fields_witness :
    create_credential_request sample_blind "did:sov:prover"
        (.CredentialDefinitionV1 sample_cred_def_v1) 21 "ls1" sample_offer 99 =
      .ok ({ prover_did := "did:sov:prover", cred_def_id := "CD", blinded_ms := 11,
             blinded_ms_correctness_proof := 13, nonce := 99 },
           { master_secret_blinding_data := 12, nonce := 99, master_secret_name := "ls1" }) ∧
    ({ prover_did := "did:sov:prover", cred_def_id := "CD", blinded_ms := 11,
       blinded_ms_correctness_proof := 13, nonce := 99 } : CredentialRequest).nonce =
      ({ master_secret_blinding_data := 12, nonce := 99,
         master_secret_name := "ls1" } : CredentialRequestMetadata).nonce :=
  ⟨rfl, (create_credential_request_result_fields sample_blind "did:sov:prover"
    (.CredentialDefinitionV1 sample_cred_def_v1) 21 "ls1" sample_offer 99 _ _ rfl).1⟩

/-! Claim C7: the revocation-entry bounds check of `_credx_verify_presentation`
rejects only indices strictly greater than the definition count, so the index
equal to the count passes the check and fails at the subsequent `Vec`
indexing. -/

/-- C7. In the revocation-entry loop: an entry index is rejected by the bounds
check (with the `Input` error) exactly when it exceeds `rev_reg_defs.len()`;
the one-past-the-end index `rev_reg_defs.len()` passes the check and the loop
then fails at the `rev_reg_defs[idx]` indexing; every strictly in-bounds index
is accepted. -/
theorem verify_presentation_rev_entry_bounds (rev_reg_defs : List RevocationRegistryDefinition)
    (entry timestamp : Nat) (rev_regs : List (String × List (Nat × Nat))) :
    (∀ idx, idx > rev_reg_defs.length →
      collect_rev_regs rev_reg_defs [(idx, entry, timestamp)] rev_regs =
        .error .invalidRevRegIndex) ∧
    collect_rev_regs rev_reg_defs [(rev_reg_defs.length, entry, timestamp)] rev_regs =
      .error .vecIndexOutOfBounds ∧
    (∀ idx (hlt : idx < rev_reg_defs.length),
      collect_rev_regs rev_reg_defs [(idx, entry, timestamp)] rev_regs =
        .ok (ainsert rev_regs (rev_reg_defs.get ⟨idx, hlt⟩).get_id
          (ainsert ((alookup rev_regs (rev_reg_defs.get ⟨idx, hlt⟩).get_id).getD [])
            timestamp entry))) := by
  refine ⟨?_, ?_, ?_⟩
  · intro idx hgt
    simp [collect_rev_regs, hgt]
  · have hnone : rev_reg_defs[rev_reg_defs.length]? = none :=
      List.getElem?_eq_none (le_refl _)
    simp [collect_rev_regs, hnone]
  · intro idx hlt
    have hsome : rev_reg_defs[idx]? = some (rev_reg_defs.get ⟨idx, hlt⟩) := by
      simp [List.getElem?_eq_getElem hlt]
    simp [collect_rev_regs, Nat.not_lt.mpr (Nat.le_of_lt_succ (Nat.lt_succ_of_lt hlt)), hsome,
      Nat.lt_irrefl, not_lt_of_ge (Nat.le_of_lt hlt)]

/-- Witness for C7 at a one-element definition list: index 1 passes the check
and dies at the indexing; index 2 is rejected by the check. -/
theorem verify_presentation_rev_entry_bounds_witness :
    collect_rev_regs [.RevocationRegistryDefinitionV1 { id := "R", accum_key := 4 }]
        [(1, 9, 50)] [] = .error .vecIndexOutOfBounds ∧
    collect_rev_regs [.RevocationRegistryDefinitionV1 { id := "R", accum_key := 4 }]
        [(2, 9, 50)] [] = .error .invalidRevRegIndex :=
  ⟨(verify_presentation_rev_entry_bounds
      [.RevocationRegistryDefinitionV1 { id := "R", accum_key := 4 }] 9 50 []).2.1,
   (verify_presentation_rev_entry_bounds
      [.RevocationRegistryDefinitionV1 { id := "R", accum_key := 4 }] 9 50 []).1 2
      (by decide)⟩

/-! Claim C3: per-item contribution of `build_sub_proof_request`. -/

/-- Per the spec (§4.5, sub-proof-request construction): the revealed-attribute
names one requested attribute contributes to the sub-proof request — nothing
when unrevealed, the normalized single name when `name` is provided, one
normalized entry per member of `names` when `names` is provided. -/
def spec_revealed_contribution (a : RequestedAttributeInfo) : List String :=
  if a.revealed then
    match a.attr_info.name with
    | some name => [attr_common_view name]
    | none =>
      match a.attr_info.names with
      | some names => names.map attr_common_view
      | none => []
  else []

/-- Per the spec: the predicate row one requested predicate contributes
(the normalized name, the rendered comparison type, and the bound). -/
def spec_predicate_contribution (p : RequestedPredicateInfo) : String × String × Int :=
  (attr_common_view p.predicate_info.name, p.predicate_info.p_type.render,
    p.predicate_info.p_value)

theorem names_foldl_add_revealed (ns : List String) (b : SubProofRequest) :
    ns.foldl (fun b name => b.add_revealed_attr (attr_common_view name)) b =
      { b with revealed_attrs := b.revealed_attrs ++ ns.map attr_common_view } := by
  induction ns generalizing b with
  | nil => simp
  | cons n t ih =>
    rw [List.foldl_cons, ih]
    simp [SubProofRequest.add_revealed_attr]

theorem attrs_foldl_spec (attrs : List RequestedAttributeInfo) (b : SubProofRequest) :
    attrs.foldl (fun b attr =>
      if attr.revealed then
        match attr.attr_info.name with
        | some name => b.add_revealed_attr (attr_common_view name)
        | none =>
          match attr.attr_info.names with
          | some names =>
            names.foldl (fun b name => b.add_revealed_attr (attr_common_view name)) b
          | none => b
      else b) b =
    { b with revealed_attrs := b.revealed_attrs ++ attrs.flatMap spec_revealed_contribution } := by
  induction attrs generalizing b with
  | nil => simp
  | cons a t ih =>
    rw [List.foldl_cons, ih]
    by_cases hrev : a.revealed
    · cases hname : a.attr_info.name with
      | some n =>
        simp [hrev, hname, SubProofRequest.add_revealed_attr, spec_revealed_contribution]
      | none =>
        cases hnames : a.attr_info.names with
        | some ns =>
          simp [hrev, hname, hnames, names_foldl_add_revealed, spec_revealed_contribution]
        | none =>
          simp [hrev, hname, hnames, spec_revealed_contribution]
    · simp [hrev, spec_revealed_contribution]

theorem preds_foldl_spec (preds : List RequestedPredicateInfo) (b : SubProofRequest) :
    preds.foldl (fun b predicate =>
      b.add_predicate (attr_common_view predicate.predicate_info.name)
        predicate.predicate_info.p_type.render predicate.predicate_info.p_value) b =
    { b with predicates := b.predicates ++ preds.map spec_predicate_contribution } := by
  induction preds generalizing b with
  | nil => simp
  | cons p t ih =>
    rw [List.foldl_cons, ih]
    simp [SubProofRequest.add_predicate, spec_predicate_contribution]

/-- C3. The sub-proof request built for a credential entry holds exactly the
per-attribute revealed-name contributions described by the spec (nothing for
unrevealed attributes, the normalized name for a revealed single-name
attribute, one normalized entry per name for a revealed `names` attribute),
in order, and exactly one `(normalized name, rendered p_type, p_value)` row
per requested predicate. -/
theorem build_sub_proof_request_contributions
    (req_attrs_for_credential : List RequestedAttributeInfo)
    (req_predicates_for_credential : List RequestedPredicateInfo) :
    build_sub_proof_request req_attrs_for_credential req_predicates_for_credential =
      { revealed_attrs := req_attrs_for_credential.flatMap spec_revealed_contribution,
        predicates := req_predicates_for_credential.map spec_predicate_contribution } := by
  simp only [build_sub_proof_request, attrs_foldl_spec, preds_foldl_spec]
  simp

/-! Claim C4: revealed single-name attributes are resolved against the
credential by normalized-name match. -/

/-- C4. For a revealed requested attribute whose request entry carries a single
`name`: when some credential value key matches the requested name under
`attr_common_view`, `update_requested_proof` inserts a
`{sub_proof_index, raw, encoded}` row holding that value's fields; when no key
matches, it fails with the `Input` error; and the no-match condition is exactly
that every credential key differs from the requested name under
`attr_common_view`. -/
theorem update_requested_proof_revealed_single_name
    (proof_req : PresentationRequestPayload) (credential : Credential)
    (sub_proof_index : Nat) (requested_proof : RequestedProof)
    (a : RequestedAttributeInfo) (ai : AttributeInfo) (n : String)
    (hrev : a.revealed = true)
    (hlook : alookup proof_req.requested_attributes a.attr_referent = some ai)
    (hname : ai.name = some n) :
    (∀ av, get_credential_values_for_attribute credential.values n = some av →
      update_requested_proof [a] [] proof_req credential sub_proof_index requested_proof =
        .ok { requested_proof with
              revealed_attrs := ainsert requested_proof.revealed_attrs a.attr_referent
                { sub_proof_index := sub_proof_index,
                  raw := av.raw, encoded := av.encoded } }) ∧
    (get_credential_values_for_attribute credential.values n = none →
      update_requested_proof [a] [] proof_req credential sub_proof_index requested_proof =
        .error (.credentialValueNotFound n)) ∧
    (get_credential_values_for_attribute credential.values n = none ↔
      ∀ kv ∈ credential.values, attr_common_view kv.1 ≠ attr_common_view n) := by
  refine ⟨?_, ?_, ?_⟩
  · intro av hav
    simp [update_requested_proof, update_requested_proof_attrs, update_requested_proof_attr,
      update_requested_proof_preds, hrev, hlook, hname, hav]
  · intro hnone
    simp [update_requested_proof, update_requested_proof_attrs, update_requested_proof_attr,
      update_requested_proof_preds, hrev, hlook, hname, hnone]
  · simp [get_credential_values_for_attribute, List.find?_eq_none]

/-- A sample single-name attribute payload. -/
def sample_attr_info : AttributeInfo := { name := some "Name", names := none }

/-- A sample predicate payload. -/
def sample_pred_info : PredicateInfo := { name := "age", p_type := .GE, p_value := 18 }

/-- A sample presentation request payload with one attribute referent and one
predicate referent. -/
def sample_payload : PresentationRequestPayload :=
  { nonce := 42, name := "req", version := "1.0",
    requested_attributes := [("r1", sample_attr_info)],
    requested_predicates := [("p1", sample_pred_info)] }

/-- A sample credential. -/
def sample_cred : Credential :=
  { schema_id := "S", cred_def_id := "CD", rev_reg_id := none,
    values := [("name", { raw := "Alex", encoded := "123" }),
               ("age", { raw := "28", encoded := "28" })],
    signature := 7, signature_correctness_proof := 8, rev_reg := none, witness := none }

/-- A sample resolved requested attribute. -/
def sample_req_attr : RequestedAttributeInfo :=
  { attr_referent := "r1", attr_info := sample_attr_info, revealed := true }

/-- Witness for C4: the sample request's `Name` attribute resolves against the
credential key `name` by normalized-name match. -/
theorem update_requested_proof_revealed_single_name_witness :
    sample_req_attr.revealed = true ∧
    alookup sample_payload.requested_attributes sample_req_attr.attr_referent =
      some sample_attr_info ∧
    update_requested_proof [sample_req_attr] [] sample_payload sample_cred 0
        RequestedProof.empty =
      .ok { RequestedProof.empty with
            revealed_attrs := ainsert RequestedProof.empty.revealed_attrs "r1"
              { sub_proof_index := 0, raw := "Alex", encoded := "123" } } :=
  ⟨rfl, rfl,
   (update_requested_proof_revealed_single_name sample_payload sample_cred 0
      RequestedProof.empty sample_req_attr sample_attr_info "Name" rfl rfl rfl).1
     { raw := "Alex", encoded := "123" } rfl⟩

/-! Claim C5: the emptiness precondition of `create_presentation`. The lemmas
show that no later stage of `create_presentation` can produce the
`noCredentialMapping` error, so that error is reserved to the precondition. -/

theorem prepare_requested_attributes_error_ne (pres_req : PresentationRequestPayload) :
    ∀ (l : List (String × Bool)) (e : Err),
      prepare_requested_attributes pres_req l = .error e → e ≠ .noCredentialMapping := by
  intro l
  induction l with
  | nil => intro e h; exact absurd h (by simp [prepare_requested_attributes])
  | cons ar rest ih =>
    intro e h
    rw [prepare_requested_attributes] at h
    split at h
    · cases h; simp
    · split at h
      · cases h
        exact ih _ (by assumption)
      · exact Except.noConfusion h

theorem prepare_requested_predicates_error_ne (pres_req : PresentationRequestPayload) :
    ∀ (l : List String) (e : Err),
      prepare_requested_predicates pres_req l = .error e → e ≠ .noCredentialMapping := by
  intro l
  induction l with
  | nil => intro e h; exact absurd h (by simp [prepare_requested_predicates])
  | cons r rest ih =>
    intro e h
    rw [prepare_requested_predicates] at h
    split at h
    · cases h; simp
    · split at h
      · cases h
        exact ih _ (by assumption)
      · exact Except.noConfusion h

theorem prepare_credential_for_proving_error_ne (ras : List (String × Bool))
    (rps : List String) (pres_req : PresentationRequestPayload) (e : Err)
    (h : prepare_credential_for_proving ras rps pres_req = .error e) :
    e ≠ .noCredentialMapping := by
  unfold prepare_credential_for_proving at h
  split at h
  · cases h
    exact prepare_requested_attributes_error_ne pres_req ras _ (by assumption)
  · split at h
    · cases h
      exact prepare_requested_predicates_error_ne pres_req rps _ (by assumption)
    · exact Except.noConfusion h

theorem collect_group_values_error_ne (cv : List (String × AttributeValues)) :
    ∀ (ns : List String) (m : List (String × AttributeValues)) (e : Err),
      collect_group_values cv ns m = .error e → e ≠ .noCredentialMapping := by
  intro ns
  induction ns with
  | nil => intro m e h; exact absurd h (by simp [collect_group_values])
  | cons n rest ih =>
    intro m e h
    rw [collect_group_values] at h
    split at h
    · cases h; simp
    · exact ih _ _ h

theorem update_requested_proof_attr_error_ne (proof_req : PresentationRequestPayload)
    (credential : Credential) (idx : Nat) (a : RequestedAttributeInfo)
    (rp : RequestedProof) (e : Err)
    (h : update_requested_proof_attr proof_req credential idx a rp = .error e) :
    e ≠ .noCredentialMapping := by
  by_cases hrev : a.revealed
  · cases hl : alookup proof_req.requested_attributes a.attr_referent with
    | none =>
      simp [update_requested_proof_attr, hrev, hl] at h
      subst h; simp
    | some attr_entry =>
      cases hn : attr_entry.name with
      | some name =>
        cases hg : get_credential_values_for_attribute credential.values name with
        | none =>
          simp [update_requested_proof_attr, hrev, hl, hn, hg] at h
          subst h; simp
        | some av =>
          simp [update_requested_proof_attr, hrev, hl, hn, hg] at h
      | none =>
        cases hns : attr_entry.names with
        | some names =>
          cases hc : collect_group_values credential.values names [] with
          | error e2 =>
            simp [update_requested_proof_attr, hrev, hl, hn, hns, hc] at h
            subst h
            exact collect_group_values_error_ne _ _ _ _ hc
          | ok vm =>
            simp [update_requested_proof_attr, hrev, hl, hn, hns, hc] at h
        | none =>
          simp [update_requested_proof_attr, hrev, hl, hn, hns] at h
  · simp [update_requested_proof_attr, hrev] at h

theorem update_requested_proof_attrs_error_ne (proof_req : PresentationRequestPayload)
    (credential : Credential) (idx : Nat) :
    ∀ (l : List RequestedAttributeInfo) (rp : RequestedProof) (e : Err),
      update_requested_proof_attrs proof_req credential idx l rp = .error e →
      e ≠ .noCredentialMapping := by
  intro l
  induction l with
  | nil => intro rp e h; exact absurd h (by simp [update_requested_proof_attrs])
  | cons a rest ih =>
    intro rp e h
    rw [update_requested_proof_attrs] at h
    split at h
    · cases h
      exact update_requested_proof_attr_error_ne proof_req credential idx a rp _ (by assumption)
    · exact ih _ _ h

theorem update_requested_proof_error_ne (attrs : List RequestedAttributeInfo)
    (preds : List RequestedPredicateInfo) (proof_req : PresentationRequestPayload)
    (credential : Credential) (idx : Nat) (rp : RequestedProof) (e : Err)
    (h : update_requested_proof attrs preds proof_req credential idx rp = .error e) :
    e ≠ .noCredentialMapping := by
  unfold update_requested_proof at h
  split at h
  · cases h
    exact update_requested_proof_attrs_error_ne proof_req credential idx attrs rp _ (by assumption)
  · exact Except.noConfusion h

theorem present_entries_error_ne (uq : String → String) (pres_req : PresentationRequest)
    (pres_req_val : PresentationRequestPayload) (link_secret : Nat)
    (schemas : List (String × Schema)) (cred_defs : List (String × CredentialDefinition)) :
    ∀ (entries : List PresentCredential) (idx : Nat) (ids : List Identifier)
      (sps : List SubProof) (rp : RequestedProof) (e : Err),
      present_entries uq pres_req pres_req_val link_secret schemas cred_defs entries
        idx ids sps rp = .error e → e ≠ .noCredentialMapping := by
  intro entries
  induction entries with
  | nil => intro idx ids sps rp e h; exact absurd h (by simp [present_entries])
  | cons present rest ih =>
    intro idx ids sps rp e h
    by_cases he : present.is_empty
    · rw [present_entries, if_pos he] at h
      exact ih _ _ _ _ _ h
    · cases hs : alookup schemas present.cred.schema_id with
      | none =>
        simp [present_entries, he, hs] at h
        subst h; simp
      | some schema =>
        cases schema with
        | SchemaV1 sv =>
          cases hc : alookup cred_defs present.cred.cred_def_id with
          | none =>
            simp [present_entries, he, hs, hc] at h
            subst h; simp
          | some cred_def =>
            cases cred_def with
            | CredentialDefinitionV1 cdv =>
              cases hp : prepare_credential_for_proving present.requested_attributes
                  present.requested_predicates pres_req_val with
              | error e2 =>
                simp [present_entries, he, hs, hc, hp] at h
                subst h
                exact prepare_credential_for_proving_error_ne _ _ _ _ hp
              | ok pair =>
                obtain ⟨req_attrs, req_preds⟩ := pair
                cases hu : update_requested_proof req_attrs req_preds pres_req_val
                    present.cred idx rp with
                | error e2 =>
                  simp [present_entries, he, hs, hc, hp, hu] at h
                  subst h
                  exact update_requested_proof_error_ne _ _ _ _ _ _ _ hu
                | ok rp2 =>
                  simp [present_entries, he, hs, hc, hp, hu] at h
                  exact ih _ _ _ _ _ h

/-- C5. `create_presentation` fails with the `Input` error of the emptiness
precondition exactly in the configurations where both the credential mapping
and the self-attested map are empty: when the check holds the call returns
that error for all other arguments (so before any proof is built), when it
fails the call never returns that error; and the check holds exactly when the
`PresentCredentials` collection is empty and `self_attested` is absent or
empty. -/
theorem create_presentation_empty_inputs (uq : String → String)
    (pres_req : PresentationRequest) (credentials : PresentCredentials)
    (self_attested : Option (List (String × String))) (link_secret : Nat)
    (schemas : List (String × Schema))
    (cred_defs : List (String × CredentialDefinition)) :
    (empty_inputs_check credentials self_attested = true →
      create_presentation uq pres_req credentials self_attested link_secret schemas
        cred_defs = .error .noCredentialMapping) ∧
    (empty_inputs_check credentials self_attested = false →
      create_presentation uq pres_req credentials self_attested link_secret schemas
        cred_defs ≠ .error .noCredentialMapping) ∧
    (empty_inputs_check credentials self_attested = true ↔
      credentials.creds = [] ∧ (self_attested = none ∨ self_attested = some [])) := by
  refine ⟨?_, ?_, ?_⟩
  · intro hchk
    simp [create_presentation, hchk]
  · intro hchk
    rw [create_presentation]
    rw [hchk]
    simp only [Bool.false_eq_true, if_false]
    cases hv : credentials.validate with
    | error e =>
      unfold PresentCredentials.validate at hv
      by_cases hd : credentials.referents.Nodup
      · simp [hd] at hv
      · simp [hd] at hv
        simp [← hv]
    | ok u =>
      cases hp : present_entries uq pres_req pres_req.value link_secret schemas cred_defs
          credentials.creds 0 [] []
          { RequestedProof.empty with self_attested_attrs := self_attested.getD [] } with
      | error e =>
        simp [hp]
        intro hcm
        exact present_entries_error_ne uq pres_req pres_req.value link_secret
          schemas cred_defs credentials.creds 0 [] [] _ e hp hcm
      | ok out =>
        obtain ⟨ids, sps, rp⟩ := out
        simp [hp]
  · unfold empty_inputs_check PresentCredentials.is_empty
    cases self_attested with
    | none => simp [List.isEmpty_iff]
    | some m => simp [List.isEmpty_iff]

/-- Witness for C5: with no credentials and no self-attested map the call
fails with the precondition error. -/
theorem create_presentation_empty_inputs_witness :
    empty_inputs_check { creds := [] } none = true ∧
    create_presentation id (.PresentationRequestV2 sample_payload) { creds := [] }
        none 9 [] [] = .error .noCredentialMapping :=
  ⟨rfl, (create_presentation_empty_inputs id (.PresentationRequestV2 sample_payload)
    { creds := [] } none 9 [] []).1 rfl⟩

/-! Claims C1 and C2: identifiers emitted by `create_presentation`. -/

theorem identifier_for_timestamp (pres_req : PresentationRequest) (uq : String → String)
    (present : PresentCredential) :
    (identifier_for pres_req uq present).timestamp = present.timestamp := by
  cases pres_req <;> rfl

theorem present_entries_ok_spec (uq : String → String) (pres_req : PresentationRequest)
    (pres_req_val : PresentationRequestPayload) (link_secret : Nat)
    (schemas : List (String × Schema)) (cred_defs : List (String × CredentialDefinition)) :
    ∀ (entries : List PresentCredential) (idx : Nat) (ids : List Identifier)
      (sps : List SubProof) (rp : RequestedProof)
      (out : List Identifier × List SubProof × RequestedProof),
      present_entries uq pres_req pres_req_val link_secret schemas cred_defs entries
        idx ids sps rp = .ok out →
      out.1 = ids ++ (entries.filter (fun c => !c.is_empty)).map (identifier_for pres_req uq) ∧
      out.2.1.map SubProof.signature =
        sps.map SubProof.signature ++
          (entries.filter (fun c => !c.is_empty)).map (fun c => c.cred.signature) := by
  intro entries
  induction entries with
  | nil =>
    intro idx ids sps rp out h
    simp only [present_entries] at h
    cases h
    simp
  | cons present rest ih =>
    intro idx ids sps rp out h
    by_cases he : present.is_empty
    · rw [present_entries, if_pos he] at h
      have hrec := ih idx ids sps rp out h
      simpa [List.filter_cons, he] using hrec
    · cases hs : alookup schemas present.cred.schema_id with
      | none => simp [present_entries, he, hs] at h
      | some schema =>
        cases schema with
        | SchemaV1 sv =>
          cases hc : alookup cred_defs present.cred.cred_def_id with
          | none => simp [present_entries, he, hs, hc] at h
          | some cred_def =>
            cases cred_def with
            | CredentialDefinitionV1 cdv =>
              cases hp : prepare_credential_for_proving present.requested_attributes
                  present.requested_predicates pres_req_val with
              | error e2 => simp [present_entries, he, hs, hc, hp] at h
              | ok pair =>
                obtain ⟨req_attrs, req_preds⟩ := pair
                cases hu : update_requested_proof req_attrs req_preds pres_req_val
                    present.cred idx rp with
                | error e2 => simp [present_entries, he, hs, hc, hp, hu] at h
                | ok rp2 =>
                  simp only [present_entries, if_neg he, hs, hc, hp, hu] at h
                  have hrec := ih _ _ _ _ _ h
                  obtain ⟨h1, h2⟩ := hrec
                  constructor
                  · rw [h1]
                    simp [List.filter_cons, he]
                  · rw [h2]
                    simp [List.filter_cons, he]

theorem create_presentation_ok_spec (uq : String → String)
    (pres_req : PresentationRequest) (credentials : PresentCredentials)
    (self_attested : Option (List (String × String))) (link_secret : Nat)
    (schemas : List (String × Schema))
    (cred_defs : List (String × CredentialDefinition)) (p : Presentation)
    (h : create_presentation uq pres_req credentials self_attested link_secret schemas
      cred_defs = .ok p) :
    p.identifiers =
      (credentials.creds.filter (fun c => !c.is_empty)).map (identifier_for pres_req uq) ∧
    p.proof.sub_proofs.map SubProof.signature =
      (credentials.creds.filter (fun c => !c.is_empty)).map (fun c => c.cred.signature) := by
  rw [create_presentation] at h
  by_cases hchk : empty_inputs_check credentials self_attested
  · rw [if_pos hchk] at h
    exact Except.noConfusion h
  · rw [if_neg hchk] at h
    cases hv : credentials.validate with
    | error e => rw [hv] at h; exact Except.noConfusion h
    | ok u =>
      rw [hv] at h
      cases hp : present_entries uq pres_req pres_req.value link_secret schemas cred_defs
          credentials.creds 0 [] []
          { RequestedProof.empty with self_attested_attrs := self_attested.getD [] } with
      | error e => simp [hp] at h
      | ok out =>
        obtain ⟨ids, sps, rp⟩ := out
        simp only [hp] at h
        have hspec := present_entries_ok_spec uq pres_req pres_req.value link_secret schemas
          cred_defs credentials.creds 0 [] [] _ _ hp
        cases h
        simpa using hspec

/-- C1. In every successful `create_presentation`, entries with empty
referent sets contribute nothing; the remaining entries, in order, each
contribute exactly one identifier (with the entry's timestamp, by
`identifier_for`) and exactly one sub-proof (of that entry's credential), so
`identifiers[i]` belongs to the credential of sub-proof `i` and the two lists
have equal length. -/
theorem create_presentation_identifiers_per_entry (uq : String → String)
    (pres_req : PresentationRequest) (credentials : PresentCredentials)
    (self_attested : Option (List (String × String))) (link_secret : Nat)
    (schemas : List (String × Schema))
    (cred_defs : List (String × CredentialDefinition)) (p : Presentation)
    (h : create_presentation uq pres_req credentials self_attested link_secret schemas
      cred_defs = .ok p) :
    p.identifiers =
      (credentials.creds.filter (fun c => !c.is_empty)).map (identifier_for pres_req uq) ∧
    p.proof.sub_proofs.map SubProof.signature =
      (credentials.creds.filter (fun c => !c.is_empty)).map (fun c => c.cred.signature) ∧
    p.identifiers.length = p.proof.sub_proofs.length ∧
    (∀ i (h1 : i < p.identifiers.length)
       (h2 : i < (credentials.creds.filter (fun c => !c.is_empty)).length),
      (p.identifiers.get ⟨i, h1⟩).timestamp =
        ((credentials.creds.filter (fun c => !c.is_empty)).get ⟨i, h2⟩).timestamp) := by
  obtain ⟨h1, h2⟩ := create_presentation_ok_spec uq pres_req credentials self_attested
    link_secret schemas cred_defs p h
  refine ⟨h1, h2, ?_, ?_⟩
  · have e1 : p.identifiers.length =
        (credentials.creds.filter (fun c => !c.is_empty)).length := by
      rw [h1]; simp
    have e2 : p.proof.sub_proofs.length =
        (credentials.creds.filter (fun c => !c.is_empty)).length := by
      have := congrArg List.length h2
      simpa using this
    rw [e1, e2]
  · intro i hi1 hi2
    simp only [List.get_eq_getElem, h1, List.getElem_map]
    exact identifier_for_timestamp pres_req uq _

/-- A sample schema payload. -/
def sample_schema_v1 : SchemaV1 :=
  { id := "S", name := "sch", version := "1.0", attr_names := ["name", "age"], seq_no := none }

/-- The sample trusted schema map. -/
def sample_schemas : List (String × Schema) := [("S", .SchemaV1 sample_schema_v1)]

/-- The sample trusted credential-definition map. -/
def sample_cred_defs : List (String × CredentialDefinition) :=
  [("CD", .CredentialDefinitionV1 sample_cred_def_v1)]

/-- A sample credential entry revealing `r1` and proving `p1`. -/
def sample_entry : PresentCredential :=
  { cred := sample_cred, timestamp := some 100, rev_state := none,
    requested_attributes := [("r1", true)], requested_predicates := ["p1"] }

/-- The sample credential mapping. -/
def sample_creds : PresentCredentials := { creds := [sample_entry] }

/-- A sample identifier-qualification projection. -/
def sample_uq : String → String := fun s => s ++ "@u"

/-- The presentation produced by the sample V2 run. -/
def sample_presentation : Presentation :=
  { proof :=
      { common_attributes := ["master_secret"],
        sub_proofs :=
          [{ sub_proof_request := { revealed_attrs := ["name"], predicates := [("age", "GE", 18)] },
             credential_schema := ["name", "age"],
             credential_values :=
               { known := [("name", { raw := "Alex", encoded := "123" }),
                           ("age", { raw := "28", encoded := "28" })],
                 hidden_master_secret := some 9 },
             signature := 7,
             pub_key := { primary := 5, revocation := none },
             rev_reg := none,
             witness := none }],
        nonce := 42 },
    requested_proof :=
      { revealed_attrs := [("r1", { sub_proof_index := 0, raw := "Alex", encoded := "123" })],
        revealed_attr_groups := [],
        self_attested_attrs := [],
        unrevealed_attrs := [],
        predicates := [("p1", { sub_proof_index := 0 })] },
    identifiers :=
      [{ schema_id := "S", cred_def_id := "CD", rev_reg_id := none, timestamp := some 100 }] }

/-- Witness for C1: the sample V2 run emits one identifier for the one
non-empty entry, and as many identifiers as sub-proofs. -/
theorem create_presentation_identifiers_per_entry_witness :
    create_presentation id (.PresentationRequestV2 sample_payload) sample_creds none 9
      sample_schemas sample_cred_defs = .ok sample_presentation ∧
    sample_presentation.identifiers.length = sample_presentation.proof.sub_proofs.length ∧
    sample_presentation.identifiers =
      (sample_creds.creds.filter (fun c => !c.is_empty)).map
        (identifier_for (.PresentationRequestV2 sample_payload) id) :=
  ⟨rfl,
   (create_presentation_identifiers_per_entry id (.PresentationRequestV2 sample_payload)
     sample_creds none 9 sample_schemas sample_cred_defs sample_presentation rfl).2.2.1,
   (create_presentation_identifiers_per_entry id (.PresentationRequestV2 sample_payload)
     sample_creds none 9 sample_schemas sample_cred_defs sample_presentation rfl).1⟩

/-- C2. In every successful `create_presentation`: under a V1 request the
emitted identifiers carry the `to_unqualified` projections (`uq`) of the
credential's `schema_id`, `cred_def_id` and optional `rev_reg_id`; under a V2
request they carry those identifiers unchanged. -/
theorem create_presentation_identifier_qualification (uq : String → String)
    (pres_req : PresentationRequest) (credentials : PresentCredentials)
    (self_attested : Option (List (String × String))) (link_secret : Nat)
    (schemas : List (String × Schema))
    (cred_defs : List (String × CredentialDefinition)) (p : Presentation)
    (h : create_presentation uq pres_req credentials self_attested link_secret schemas
      cred_defs = .ok p) :
    (∀ payload, pres_req = .PresentationRequestV1 payload →
      p.identifiers = (credentials.creds.filter (fun c => !c.is_empty)).map (fun c =>
        { schema_id := uq c.cred.schema_id, cred_def_id := uq c.cred.cred_def_id,
          rev_reg_id := c.cred.rev_reg_id.map uq, timestamp := c.timestamp })) ∧
    (∀ payload, pres_req = .PresentationRequestV2 payload →
      p.identifiers = (credentials.creds.filter (fun c => !c.is_empty)).map (fun c =>
        { schema_id := c.cred.schema_id, cred_def_id := c.cred.cred_def_id,
          rev_reg_id := c.cred.rev_reg_id, timestamp := c.timestamp })) := by
  have h1 := (create_presentation_ok_spec uq pres_req credentials self_attested link_secret
    schemas cred_defs p h).1
  constructor
  · rintro payload rfl
    rw [h1]
    rfl
  · rintro payload rfl
    rw [h1]
    rfl

/-- The presentation produced by the sample V1 run under `sample_uq`. -/
def sample_presentation_v1 : Presentation :=
  { proof :=
      { common_attributes := ["master_secret"],
        sub_proofs :=
          [{ sub_proof_request := { revealed_attrs := ["name"], predicates := [("age", "GE", 18)] },
             credential_schema := ["name", "age"],
             credential_values :=
               { known := [("name", { raw := "Alex", encoded := "123" }),
                           ("age", { raw := "28", encoded := "28" })],
                 hidden_master_secret := some 9 },
             signature := 7,
             pub_key := { primary := 5, revocation := none },
             rev_reg := none,
             witness := none }],
        nonce := 42 },
    requested_proof :=
      { revealed_attrs := [("r1", { sub_proof_index := 0, raw := "Alex", encoded := "123" })],
        revealed_attr_groups := [],
        self_attested_attrs := [],
        unrevealed_attrs := [],
        predicates := [("p1", { sub_proof_index := 0 })] },
    identifiers :=
      [{ schema_id := "S@u", cred_def_id := "CD@u", rev_reg_id := none,
         timestamp := some 100 }] }

/-- Witness for C2: the sample V1 run coerces the identifiers through
`sample_uq`. -/
theorem create_presentation_identifier_qualification_witness :
    create_presentation sample_uq (.PresentationRequestV1 sample_payload) sample_creds none 9
      sample_schemas sample_cred_defs = .ok sample_presentation_v1 ∧
    sample_presentation_v1.identifiers =
      (sample_creds.creds.filter (fun c => !c.is_empty)).map (fun c =>
        { schema_id := sample_uq c.cred.schema_id,
          cred_def_id := sample_uq c.cred.cred_def_id,
          rev_reg_id := c.cred.rev_reg_id.map sample_uq, timestamp := c.timestamp }) :=
  ⟨rfl,
   (create_presentation_identifier_qualification sample_uq
     (.PresentationRequestV1 sample_payload) sample_creds none 9 sample_schemas
     sample_cred_defs sample_presentation_v1 rfl).1 sample_payload rfl⟩
